import Mathlib

/-!
# USBView `usbtree.c`: description formatter, tree display and file loading

A shallow embedding of `src/src/usbtree.c` (`Init`, `PopulateListBox`, `SelectItem`,
`DisplayDevice`, `LoadUSBTree`) together with theorems about it.

Conventions of the embedding.

* C `int` values are `Int`; the results of `<<` are wrapped to 32-bit two's complement.
* A `char *` field is an `Option String` (`none` is `NULL`).
* A fixed array of pointers `T *a[MAX]` is a `List (Option T)`: slot `i` is `a.getD i none`,
  and only the slots below `MAX` exist.  The bounds `MAX_CONFIGS`, `MAX_INTERFACES`,
  `MAX_ENDPOINTS`, `MAX_CHILDREN` come from `usbparse.h`, which is not part of the sources at
  hand; they are carried in `Env`.
* The text panel is the sequence of segments handed to `gtk_editable_insert_text`.  The local
  `position` starts at `0` on an emptied panel and is advanced past every inserted segment, so
  each insertion appends.
* `sprintf` is modelled on unbounded strings; the capacity of the 1000-byte scratch buffer is
  not modelled.
-/

namespace UsbView

/-! ## Constants of `usbparse.h` and C library conventions -/

/-- The array bounds declared by `usbparse.h`, and the text the C library's `printf` family
writes for a `%s` conversion whose argument is a null pointer. -/
structure Env where
  MAX_CONFIGS : Nat
  MAX_INTERFACES : Nat
  MAX_ENDPOINTS : Nat
  MAX_CHILDREN : Nat
  nullText : String

/-- The macro `MAX_LINE_SIZE` of line 40. -/
def MAX_LINE_SIZE : Nat := 1000

/-- Reduction of an integer to the range of a 32-bit two's complement `int`. -/
def wrap32 (x : Int) : Int := Int.bmod x (2 ^ 32)

/-- C `x << n` on `int`. -/
def shl (x : Int) (n : Nat) : Int := wrap32 (x * 2 ^ n)

/-- C `x >> n` on `int` (arithmetic shift). -/
def shr (x : Int) (n : Nat) : Int := x >>> n

/-- The `%i` conversion. -/
def fmt_i (v : Int) : String := toString v

/-- The `%.Nx` conversion: the argument read as `unsigned int`, in lower-case hexadecimal,
padded with zeros to at least `prec` digits. -/
def fmt_x (prec : Nat) (v : Int) : String :=
  let digits := Nat.toDigits 16 (v % 2 ^ 32).toNat
  String.mk (List.replicate (prec - digits.length) '0' ++ digits)

/-- The `%s` conversion. -/
def fmt_s (env : Env) : Option String → String
  | some s => s
  | none => env.nullText

/-- A counting loop `for (i = start; i < start + count; ++i) body`, threading the state. -/
def forLoop {σ : Type} (body : Nat → σ → σ) : Nat → Nat → σ → σ
  | _, 0, s => s
  | i, count + 1, s => forLoop body (i + 1) count (body i s)

/-! ## Data model (`usbparse.h`) -/

structure DeviceEndpoint where
  address : Int
  in_ : Bool
  attr : Int
  type : Option String
  maxPacketSize : Int
  interval : Option String

structure DeviceInterface where
  name : Option String
  interfaceNumber : Int
  alternateNumber : Int
  class_ : Option String
  subClass : Int
  protocol : Int
  numEndpoints : Int
  endpoint : List (Option DeviceEndpoint)

structure DeviceConfig where
  configNumber : Int
  numInterfaces : Int
  attributes : Int
  maxPower : Option String
  interface : List (Option DeviceInterface)

structure DeviceBandwidth where
  allocated : Int
  total : Int
  percent : Int
  numInterruptRequests : Int
  numIsocRequests : Int

/-- The fields of a `Device` other than its children. `leaf` is the handle of the device's
tree node (`none` is `NULL`). -/
structure DeviceFields where
  name : Option String
  manufacturer : Option String
  serialNumber : Option String
  speed : Int
  maxChildren : Int
  bandwidth : Option DeviceBandwidth
  version : Option String
  class_ : Option String
  subClass : Option String
  protocol : Option String
  maxPacketSize : Int
  numConfigs : Int
  vendorId : Int
  productId : Int
  revisionNumber : Option String
  deviceNumber : Int
  busNumber : Int
  config : List (Option DeviceConfig)
  leaf : Option Nat

/-- A device with its array of child devices. -/
inductive Device where
  | mk (fields : DeviceFields) (child : List (Option Device))

namespace Device

@[reducible] def fields : Device → DeviceFields
  | mk f _ => f

@[reducible] def child : Device → List (Option Device)
  | mk _ c => c

@[reducible] def name (d : Device) : Option String := d.fields.name
@[reducible] def manufacturer (d : Device) : Option String := d.fields.manufacturer
@[reducible] def serialNumber (d : Device) : Option String := d.fields.serialNumber
@[reducible] def speed (d : Device) : Int := d.fields.speed
@[reducible] def maxChildren (d : Device) : Int := d.fields.maxChildren
@[reducible] def bandwidth (d : Device) : Option DeviceBandwidth := d.fields.bandwidth
@[reducible] def version (d : Device) : Option String := d.fields.version
@[reducible] def class_ (d : Device) : Option String := d.fields.class_
@[reducible] def subClass (d : Device) : Option String := d.fields.subClass
@[reducible] def protocol (d : Device) : Option String := d.fields.protocol
@[reducible] def maxPacketSize (d : Device) : Int := d.fields.maxPacketSize
@[reducible] def numConfigs (d : Device) : Int := d.fields.numConfigs
@[reducible] def vendorId (d : Device) : Int := d.fields.vendorId
@[reducible] def productId (d : Device) : Int := d.fields.productId
@[reducible] def revisionNumber (d : Device) : Option String := d.fields.revisionNumber
@[reducible] def deviceNumber (d : Device) : Int := d.fields.deviceNumber
@[reducible] def busNumber (d : Device) : Int := d.fields.busNumber
@[reducible] def config (d : Device) : List (Option DeviceConfig) := d.fields.config
@[reducible] def leaf (d : Device) : Option Nat := d.fields.leaf

/-- The assignment `device->leaf = node`. -/
def setLeaf : Device → Option Nat → Device
  | mk f c, node => mk { f with leaf := node } c

end Device

/-! ## The text panel -/

/-- The contents of `textDescription`: the inserted segments, in order. -/
abbrev TextBox := List String

/-- The call `gtk_editable_insert_text (textDescription, s, strlen (s), &position)` with
`position` at the end of the panel. -/
def gtk_editable_insert_text (box : TextBox) (s : String) : TextBox := box ++ [s]

/-! ## `PopulateListBox` -/

/-- The `switch (device->speed)` of lines 102-107. -/
def speedString (speed : Int) : String :=
  if speed = 1 then "1.5Mb/s (low)"
  else if speed = 12 then "12Mb/s (full)"
  else if speed = 480 then "480Mb/s (high)"
  else "unknown"

/-- The `sprintf` of lines 151-154. -/
def sprintfConfig (env : Env) (config : DeviceConfig) : String :=
  "\n\nConfig Number: " ++ fmt_i config.configNumber ++
  "\n\tNumber of Interfaces: " ++ fmt_i config.numInterfaces ++
  "\n\tAttributes: " ++ fmt_x 2 config.attributes ++
  "\n\tMaxPower Needed: " ++ fmt_s env config.maxPower

/-- The `sprintf` of lines 170-173. -/
def sprintfInterface (env : Env) (interface : DeviceInterface) : String :=
  "\n\t\tAlternate Number: " ++ fmt_i interface.alternateNumber ++
  "\n\t\tClass: " ++ fmt_s env interface.class_ ++
  "\n\t\tSub Class: " ++ fmt_i interface.subClass ++
  "\n\t\tProtocol: " ++ fmt_i interface.protocol ++
  "\n\t\tNumber of Endpoints: " ++ fmt_i interface.numEndpoints

/-- The `sprintf` of lines 181-186. -/
def sprintfEndpoint (env : Env) (endpoint : DeviceEndpoint) : String :=
  "\n\n\t\t\tEndpoint Address: " ++ fmt_x 2 endpoint.address ++
  "\n\t\t\tDirection: " ++ (if endpoint.in_ then "in" else "out") ++
  "\n\t\t\tAttribute: " ++ fmt_i endpoint.attr ++
  "\n\t\t\tType: " ++ fmt_s env endpoint.type ++
  "\n\t\t\tMax Packet Size: " ++ fmt_i endpoint.maxPacketSize ++
  "\n\t\t\tInterval: " ++ fmt_s env endpoint.interval

/-- Lines 84-143: the device-level blocks, from the name to the vendor block. -/
def PopulateListBox.deviceBlocks (env : Env) (device : Device) (box : TextBox) : TextBox :=
  let box := match device.name with
    | some name => gtk_editable_insert_text box name
    | none => box
  let box := match device.manufacturer with
    | some manufacturer => gtk_editable_insert_text box ("\nManufacturer: " ++ manufacturer)
    | none => box
  let box := match device.serialNumber with
    | some serialNumber => gtk_editable_insert_text box ("\nSerial Number: " ++ serialNumber)
    | none => box
  let tempString := speedString device.speed
  let box := gtk_editable_insert_text box ("\nSpeed: " ++ tempString)
  let box :=
    if device.maxChildren ≠ 0 then
      gtk_editable_insert_text box ("\nNumber of Ports: " ++ fmt_i device.maxChildren)
    else box
  let box := match device.bandwidth with
    | some bandwidth =>
      let box := gtk_editable_insert_text box
        ("\nBandwidth allocated: " ++ fmt_i bandwidth.allocated ++ " / " ++
          fmt_i bandwidth.total ++ " (" ++ fmt_i bandwidth.percent ++ "%)")
      let box := gtk_editable_insert_text box
        ("\nTotal number of interrupt requests: " ++ fmt_i bandwidth.numInterruptRequests)
      gtk_editable_insert_text box
        ("\nTotal number of isochronous requests: " ++ fmt_i bandwidth.numIsocRequests)
    | none => box
  let box := match device.version with
    | some version =>
      gtk_editable_insert_text box
        ("\nUSB Version: " ++ version ++
          "\nDevice Class: " ++ fmt_s env device.class_ ++
          "\nDevice Subclass: " ++ fmt_s env device.subClass ++
          "\nDevice Protocol: " ++ fmt_s env device.protocol ++
          "\nMaximum Default Endpoint Size: " ++ fmt_i device.maxPacketSize ++
          "\nNumber of Configurations: " ++ fmt_i device.numConfigs)
    | none => box
  let box :=
    if device.vendorId ≠ 0 then
      gtk_editable_insert_text box
        ("\nVendor Id: " ++ fmt_x 4 device.vendorId ++
          "\nProduct Id: " ++ fmt_x 4 device.productId ++
          "\nRevision Number: " ++ fmt_s env device.revisionNumber)
    else box
  box

/-- Lines 160-189: the block run for a present interface, ending with the loop over its
endpoint slots. -/
def PopulateListBox.interfaceBlock (env : Env) (interface : DeviceInterface) (box : TextBox) :
    TextBox :=
  let box := gtk_editable_insert_text box
    ("\n\n\tInterface Number: " ++ fmt_i interface.interfaceNumber)
  let box := match interface.name with
    | some name => gtk_editable_insert_text box ("\n\t\tName: " ++ name)
    | none => box
  let box := gtk_editable_insert_text box (sprintfInterface env interface)
  forLoop (fun endpointNum box =>
    match interface.endpoint.getD endpointNum none with
    | some endpoint => gtk_editable_insert_text box (sprintfEndpoint env endpoint)
    | none => box) 0 env.MAX_ENDPOINTS box

/-- Lines 148-191: the block run for a present configuration, ending with the loop over its
interface slots. -/
def PopulateListBox.configBlock (env : Env) (config : DeviceConfig) (box : TextBox) :
    TextBox :=
  let box := gtk_editable_insert_text box (sprintfConfig env config)
  forLoop (fun interfaceNum box =>
    match config.interface.getD interfaceNum none with
    | some interface => PopulateListBox.interfaceBlock env interface box
    | none => box) 0 env.MAX_INTERFACES box

/-- Lines 75-193 of `PopulateListBox`, for a device that was found: the panel is emptied
(`gtk_editable_delete_text (..., 0, -1)`), the device-level blocks are inserted, and the loop
of lines 146-193 runs over the configuration slots. The result is the sequence of inserted
segments. -/
def PopulateListBox.segments (env : Env) (device : Device) : TextBox :=
  let box : TextBox := []
  let box := PopulateListBox.deviceBlocks env device box
  forLoop (fun configNum box =>
    match device.config.getD configNum none with
    | some config => PopulateListBox.configBlock env config box
    | none => box) 0 env.MAX_CONFIGS box

/-! ## The tree widget -/

/-- A row of the tree widget `treeUSB`: the node it was inserted under (`none` is `NULL`,
the top level), its text and its row data. The row data is a `gpointer` made by a cast from
an `int` and read back by a cast to `int`; it is held as that `int`. -/
structure TreeNode where
  parent : Option Nat
  text : Option String
  rowData : Int

/-- The rows of `treeUSB` in insertion order. The handle of a node (`GtkCTreeNode *`) is its
index in this list. -/
abbrev CTree := List TreeNode

/-- The call `gtk_ctree_insert_node (treeUSB, parent, NULL, text, ...)`: appends a row under
`parent` and returns its handle. -/
def gtk_ctree_insert_node (tree : CTree) (parent : Option Nat) (text : Option String) :
    Nat × CTree :=
  (tree.length, tree ++ [{ parent := parent, text := text, rowData := 0 }])

/-- The call `gtk_ctree_node_set_row_data (treeUSB, node, data)`. -/
def gtk_ctree_node_set_row_data : CTree → Nat → Int → CTree
  | [], _, _ => []
  | row :: rows, 0, data => { row with rowData := data } :: rows
  | row :: rows, node + 1, data => row :: gtk_ctree_node_set_row_data rows node data

/-- The call `gtk_ctree_node_get_row_data (treeUSB, node)`. -/
def gtk_ctree_node_get_row_data (tree : CTree) (node : Nat) : Int :=
  match tree.get? node with
  | some row => row.rowData
  | none => 0

/-! ## Application state and collaborators -/

/-- The functions of `usbparse.c`, the file access and the widget removal used by this file,
over the state `P` of the parser module (which holds the forest). `usb_parse_line` receives
the line buffer as a mutable `char *`: it is given the string in the buffer and returns the
string it leaves there, with the new parser state. -/
structure Collab (P : Type) where
  usb_initialize_list : P → P
  usb_parse_line : String → P → String × P
  usb_name_devices : P → P
  rootDevice : P → Option Device
  usb_find_device : P → Int → Int → Option Device
  gtk_ctree_remove_node : CTree → Option Nat → CTree
  fopen : String → Option (List Char)

/-- The state the functions of this file act on. `messages` collects the `ShowMessage` calls
(title, text) and `stdout` the `printf` output. -/
structure App (P : Type) where
  usb : P
  treeUSB : CTree
  textDescription : TextBox
  messages : List (String × String)
  stdout : List String
  devicesFile : String
  signal_connected : Bool

/-- The function `Init` (lines 43-54). -/
def Init {P : Type} (X : Collab P) (app : App P) : App P :=
  let app :=
    match X.rootDevice app.usb with
    | some rootDevice =>
      { app with treeUSB := X.gtk_ctree_remove_node app.treeUSB rootDevice.leaf }
    | none => app
  { app with textDescription := [] }

/-- The function `PopulateListBox` (lines 57-205). -/
def PopulateListBox {P : Type} (env : Env) (X : Collab P) (deviceId : Int) (app : App P) :
    App P :=
  let deviceNumber := shr deviceId 8
  let busNumber := Int.land deviceId 0x00ff
  match X.usb_find_device app.usb deviceNumber busNumber with
  | none => { app with stdout := app.stdout ++ ["Can't seem to find device info to display\n"] }
  | some device => { app with textDescription := PopulateListBox.segments env device }

/-- The function `SelectItem` (lines 210-218). -/
def SelectItem {P : Type} (env : Env) (X : Collab P) (node : Nat) (app : App P) : App P :=
  let data := gtk_ctree_node_get_row_data app.treeUSB node
  PopulateListBox env X data app

/-! ## `DisplayDevice` -/

/-- The row data `DisplayDevice` attaches to the node of a device (line 235). -/
def DisplayDevice.rowData (device : Device) : Int :=
  Int.lor (shl device.deviceNumber 8) device.busNumber

/-- The function `DisplayDevice` (lines 221-314). The store `device->leaf = ...` is seen by
the calls for the children, which read it as `parent->leaf`. -/
def DisplayDevice (env : Env) (parent : Device) : Option Device → CTree → CTree
  | none, treeUSB => treeUSB
  | some device, treeUSB =>
    let inserted := gtk_ctree_insert_node treeUSB parent.leaf device.name
    let treeUSB := inserted.2
    let device' := device.setLeaf (some inserted.1)
    let treeUSB := gtk_ctree_node_set_row_data treeUSB inserted.1 (DisplayDevice.rowData device')
    forLoop (fun i treeUSB => DisplayDevice env device' (device'.child.getD i none) treeUSB)
      0 env.MAX_CHILDREN treeUSB
termination_by device => sizeOf device
decreasing_by
  cases device with
  | mk f c =>
    have key : ∀ (l : List (Option Device)) (j : Nat),
        sizeOf (l.getD j none) < 1 + sizeOf l := by
      intro l
      induction l with
      | nil => intro j; simp
      | cons x xs ih =>
        intro j
        cases j with
        | zero => simp; omega
        | succ k =>
          have := ih k
          simp only [List.getD_cons_succ, List.cons.sizeOf_spec]
          omega
    have := key c i
    simp only [Device.setLeaf, Device.child, Device.mk.sizeOf_spec, Option.some.sizeOf_spec]
    omega

/-! ## `LoadUSBTree` -/

/-- The text of `verifyMessage` (lines 320-322). -/
def verifyMessage : String :=
  "Verify that you have USB compiled into your kernel,\n" ++
  "have the USB core modules loaded, and have the\n" ++
  "usbdevfs filesystem mounted."

/-- An input stream: the bytes not yet read and the end-of-file indicator. -/
structure FILE where
  unread : List Char
  eof : Bool

/-- The scan of `fgets`: takes at most `room` bytes, stopping after a newline. Returns the
bytes taken, the bytes left and whether the end of the input was hit. -/
def fgets.scan : Nat → List Char → List Char × List Char × Bool
  | 0, rest => ([], rest, false)
  | _ + 1, [] => ([], [], true)
  | room + 1, c :: rest =>
    if c = '\n' then ([c], rest, false)
    else
      let r := fgets.scan room rest
      (c :: r.1, r.2.1, r.2.2)

/-- The C library call `fgets (buffer, n, stream)`: the bytes stored in the buffer (before the
terminating NUL), or `none` for a `NULL` result, which leaves the buffer as it was; and the
stream afterwards. -/
def fgets (n : Nat) (stream : FILE) : Option (List Char) × FILE :=
  let r := fgets.scan (n - 1) stream.unread
  if r.1 = [] ∧ r.2.2 = true then (none, { unread := r.2.1, eof := true })
  else (some r.1, { unread := r.2.1, eof := stream.eof || r.2.2 })

/-- The C library call `strlen` on a buffer: the number of bytes before the first NUL. -/
def strlen (buffer : List Char) : Nat := (buffer.takeWhile (fun c => c ≠ '\x00')).length

/-- Lines 352-353: the string in the buffer is handed to `usb_parse_line` when its last
byte is a newline. The result is the content of the buffer afterwards, as `usb_parse_line`
left it, and the parser state. -/
def LoadUSBTree.parseIfComplete {P : Type} (usb_parse_line : String → P → String × P)
    (dataLine : List Char) (usb : P) : List Char × P :=
  if dataLine.getD (strlen dataLine - 1) '\x00' = '\n' then
    let parsed := usb_parse_line (String.mk (dataLine.take (strlen dataLine))) usb
    (parsed.1.data, parsed.2)
  else (dataLine, usb)

/-- The read loop of lines 348-357. `dataLine` is the content of the line buffer. The result
is `none` when the test of line 352 reads `dataLine[-1]` (an empty string in the buffer). -/
def LoadUSBTree.readLoop {P : Type} (usb_parse_line : String → P → String × P)
    (usbFile : FILE) (dataLine : List Char) (usb : P) : Option P :=
  let read := fgets MAX_LINE_SIZE usbFile
  let dataLine := match read.1 with
    | some bytes => bytes
    | none => dataLine
  if strlen dataLine = 0 then none
  else
    let turn := LoadUSBTree.parseIfComplete usb_parse_line dataLine usb
    if read.2.eof = true then some turn.2
    else LoadUSBTree.readLoop usb_parse_line read.2 turn.1 turn.2
termination_by usbFile.unread.length
decreasing_by
  rename_i hEof
  have scan_le : ∀ (room : Nat) (l : List Char), (fgets.scan room l).2.1.length ≤ l.length := by
    intro room
    induction room with
    | zero => intro l; simp [fgets.scan]
    | succ k ih =>
      intro l
      cases l with
      | nil => simp [fgets.scan]
      | cons c rest =>
        have := ih rest
        simp only [fgets.scan]
        split
        · simp
        · simp; omega
  have scan_lt : ∀ (room : Nat) (l : List Char), (fgets.scan (room + 1) l).2.2 = false →
      (fgets.scan (room + 1) l).2.1.length < l.length := by
    intro room l
    cases l with
    | nil => simp [fgets.scan]
    | cons c rest =>
      have := scan_le room rest
      simp only [fgets.scan]
      split
      · simp
      · simp; omega
  have key : ∀ f : FILE, ¬ (fgets 1000 f).2.eof = true →
      (fgets 1000 f).2.unread.length < f.unread.length := by
    intro f hf
    unfold fgets at hf ⊢
    by_cases hc : (fgets.scan (1000 - 1) f.unread).1 = [] ∧
        (fgets.scan (1000 - 1) f.unread).2.2 = true
    · simp [hc] at hf
    · simp only [hc, if_false, Bool.or_eq_true, not_or, Bool.not_eq_true] at hf ⊢
      exact scan_lt 998 f.unread hf.2
  exact key usbFile hEof

/-- The loop of lines 370-372 over the first `rootDevice->maxChildren` child slots of the
forest root. The result is `none` when a slot outside the array `child[MAX_CHILDREN]` is
read. -/
def LoadUSBTree.displayLoop (env : Env) (rootDevice : Device) (treeUSB : CTree) :
    Option CTree :=
  forLoop (fun i state =>
    match state with
    | none => none
    | some treeUSB =>
      if i < env.MAX_CHILDREN then
        some (DisplayDevice env rootDevice (rootDevice.child.getD i none) treeUSB)
      else none) 0 rootDevice.maxChildren.toNat (some treeUSB)

/-- The function `LoadUSBTree` (lines 324-385). `dataLine0` is the initial content of the
freshly allocated line buffer. The result is `none` when the run leaves defined behaviour
(see `readLoop`, `displayLoop`) or `rootDevice` is `NULL` at line 370. -/
def LoadUSBTree {P : Type} (env : Env) (X : Collab P) (dataLine0 : List Char) (app : App P) :
    Option (App P) :=
  match X.fopen app.devicesFile with
  | none =>
    let tempString := "Can not open " ++ app.devicesFile ++ "\n" ++ verifyMessage
    some { app with messages := app.messages ++ [("USBView Error", tempString)] }
  | some contents =>
    let usbFile : FILE := { unread := contents, eof := false }
    let app := Init X app
    let app := { app with usb := X.usb_initialize_list app.usb }
    match LoadUSBTree.readLoop X.usb_parse_line usbFile dataLine0 app.usb with
    | none => none
    | some usb =>
      let app := { app with usb := X.usb_name_devices usb }
      match X.rootDevice app.usb with
      | none => none
      | some rootDevice =>
        match LoadUSBTree.displayLoop env rootDevice app.treeUSB with
        | none => none
        | some treeUSB => some { app with treeUSB := treeUSB, signal_connected := true }

/-! ## Specification-level descriptions -/

namespace Spec

/-- The enumerated rate table of the description formatter. -/
def rateTable : List (Int × String) :=
  [(1, "1.5Mb/s (low)"), (12, "12Mb/s (full)"), (480, "480Mb/s (high)")]

/-- The speed label: the table entry of the rate, else "unknown". -/
def speedLabel (speed : Int) : String :=
  match rateTable.lookup speed with
  | some label => label
  | none => "unknown"

/-- A segment carries the label `label` when its text begins with it. -/
def labelled (label segment : String) : Prop := label.data <+: segment.data

/-- The summaries of the present endpoints of an interface, in ascending slot order. -/
def endpointSegments (env : Env) (interface : DeviceInterface) : List String :=
  (List.range env.MAX_ENDPOINTS).flatMap fun k =>
    match interface.endpoint.getD k none with
    | some endpoint => [sprintfEndpoint env endpoint]
    | none => []

/-- The summary of an interface: its number, its name when it has one, its other fields. -/
def interfaceSummary (env : Env) (interface : DeviceInterface) : List String :=
  ["\n\n\tInterface Number: " ++ fmt_i interface.interfaceNumber] ++
    (match interface.name with
      | some name => ["\n\t\tName: " ++ name]
      | none => []) ++
    [sprintfInterface env interface]

/-- The summaries of the present interfaces of a configuration, in ascending slot order, each
followed by the summaries of its present endpoints. -/
def interfaceSegments (env : Env) (config : DeviceConfig) : List String :=
  (List.range env.MAX_INTERFACES).flatMap fun j =>
    match config.interface.getD j none with
    | some interface => interfaceSummary env interface ++ endpointSegments env interface
    | none => []

/-- The configuration part of a description: the summaries of the present configurations in
ascending slot order, each followed by the segments of its interfaces. -/
def configurationPart (env : Env) (device : Device) : List String :=
  (List.range env.MAX_CONFIGS).flatMap fun i =>
    match device.config.getD i none with
    | some config => sprintfConfig env config :: interfaceSegments env config
    | none => []

/-- The device-level segments that follow the name: manufacturer, serial number, speed, port
count, bandwidth block, version block, vendor block, each only when its data is there. -/
def deviceSegments (env : Env) (device : Device) : List String :=
  (match device.manufacturer with
    | some manufacturer => ["\nManufacturer: " ++ manufacturer]
    | none => []) ++
  (match device.serialNumber with
    | some serialNumber => ["\nSerial Number: " ++ serialNumber]
    | none => []) ++
  ["\nSpeed: " ++ speedLabel device.speed] ++
  (if device.maxChildren ≠ 0 then ["\nNumber of Ports: " ++ fmt_i device.maxChildren] else []) ++
  (match device.bandwidth with
    | some bandwidth =>
      ["\nBandwidth allocated: " ++ fmt_i bandwidth.allocated ++ " / " ++
          fmt_i bandwidth.total ++ " (" ++ fmt_i bandwidth.percent ++ "%)",
        "\nTotal number of interrupt requests: " ++ fmt_i bandwidth.numInterruptRequests,
        "\nTotal number of isochronous requests: " ++ fmt_i bandwidth.numIsocRequests]
    | none => []) ++
  (match device.version with
    | some version =>
      ["\nUSB Version: " ++ version ++
          "\nDevice Class: " ++ fmt_s env device.class_ ++
          "\nDevice Subclass: " ++ fmt_s env device.subClass ++
          "\nDevice Protocol: " ++ fmt_s env device.protocol ++
          "\nMaximum Default Endpoint Size: " ++ fmt_i device.maxPacketSize ++
          "\nNumber of Configurations: " ++ fmt_i device.numConfigs]
    | none => []) ++
  (if device.vendorId ≠ 0 then
    ["\nVendor Id: " ++ fmt_x 4 device.vendorId ++
      "\nProduct Id: " ++ fmt_x 4 device.productId ++
      "\nRevision Number: " ++ fmt_s env device.revisionNumber]
  else [])

end Spec

namespace Spec

/-- A segment mentions `label` when the label occurs somewhere in its text. -/
def mentions (label segment : String) : Prop := label.data <:+: segment.data

mutual
/-- The rows of the subtree of `device` in pre-order, when the row of `device` gets the handle
`base` and lies under `parentNode`: the row of the device first, then the rows of its children
under `some base`. -/
def rows (env : Env) (parentNode : Option Nat) (base : Nat) : Device → List TreeNode
  | Device.mk fields child =>
    { parent := parentNode, text := fields.name,
      rowData := DisplayDevice.rowData (Device.mk fields child) } ::
      slotRows env (some base) (base + 1) env.MAX_CHILDREN child
/-- The rows of the subtrees in the first `count` slots, in ascending slot order, all under
`parentNode`, the first row getting the handle `base`; an empty slot has no row. -/
def slotRows (env : Env) (parentNode : Option Nat) (base : Nat) :
    Nat → List (Option Device) → List TreeNode
  | 0, _ => []
  | _ + 1, [] => []
  | count + 1, none :: slots => slotRows env parentNode base count slots
  | count + 1, some device :: slots =>
    rows env parentNode base device ++
      slotRows env parentNode (base + (rows env parentNode base device).length) count slots
end

/-- The rows of an optional device: none for an empty slot. -/
def optionRows (env : Env) (parentNode : Option Nat) (base : Nat) :
    Option Device → List TreeNode
  | none => []
  | some device => rows env parentNode base device

mutual
/-- The devices of the subtree of `device` in pre-order: the device, then the subtrees of its
present children in ascending slot order. -/
def preorder (env : Env) : Device → List Device
  | Device.mk fields child =>
    Device.mk fields child :: preorderSlots env env.MAX_CHILDREN child
/-- The devices reachable through the first `count` slots, in pre-order. -/
def preorderSlots (env : Env) : Nat → List (Option Device) → List Device
  | 0, _ => []
  | _ + 1, [] => []
  | count + 1, none :: slots => preorderSlots env count slots
  | count + 1, some device :: slots => preorder env device ++ preorderSlots env count slots
end

end Spec

/-! ## Sample inputs -/

namespace Sample

/-- Bounds of eight slots each, and the text glibc prints for a null string. -/
def env : Env :=
  { MAX_CONFIGS := 8, MAX_INTERFACES := 8, MAX_ENDPOINTS := 8, MAX_CHILDREN := 8,
    nullText := "(null)" }

/-- An interrupt endpoint whose interval string is absent. -/
def mouseEndpoint : DeviceEndpoint :=
  { address := 129, in_ := true, attr := 3, type := some "Int.", maxPacketSize := 8,
    interval := none }

def mouseInterface : DeviceInterface :=
  { name := some "usbhid", interfaceNumber := 0, alternateNumber := 0, class_ := some "03(HID  )",
    subClass := 1, protocol := 2, numEndpoints := 1, endpoint := [none, some mouseEndpoint] }

/-- A configuration whose `maxPower` string is absent. -/
def mouseConfig : DeviceConfig :=
  { configNumber := 1, numInterfaces := 1, attributes := 160, maxPower := none,
    interface := [some mouseInterface] }

/-- A device with bus number 1 and device number 2. -/
def mouse : Device :=
  Device.mk
    { name := some "USB Mouse", manufacturer := none, serialNumber := none, speed := 1,
      maxChildren := 0, bandwidth := none, version := none, class_ := none, subClass := none,
      protocol := none, maxPacketSize := 8, numConfigs := 1, vendorId := 0, productId := 0,
      revisionNumber := none, deviceNumber := 2, busNumber := 1, config := [some mouseConfig],
      leaf := none } []

/-- A device with a name and a speed only. -/
def plain : Device :=
  Device.mk
    { name := some "USB UHCI Root Hub", manufacturer := none, serialNumber := none, speed := 12,
      maxChildren := 0, bandwidth := none, version := none, class_ := none, subClass := none,
      protocol := none, maxPacketSize := 0, numConfigs := 0, vendorId := 0, productId := 0,
      revisionNumber := none, deviceNumber := 1, busNumber := 2, config := [], leaf := none } []

/-- A bus root with the mouse on its second port. -/
def hub : Device :=
  Device.mk
    { name := some "USB UHCI Root Hub", manufacturer := none, serialNumber := none, speed := 12,
      maxChildren := 2, bandwidth := none, version := none, class_ := none, subClass := none,
      protocol := none, maxPacketSize := 0, numConfigs := 0, vendorId := 0, productId := 0,
      revisionNumber := none, deviceNumber := 1, busNumber := 1, config := [], leaf := none }
    [none, some mouse]

/-- A forest root that declares two children and holds bus roots in slots 0 and 2. -/
def forest : Device :=
  Device.mk
    { name := none, manufacturer := none, serialNumber := none, speed := 0,
      maxChildren := 2, bandwidth := none, version := none, class_ := none, subClass := none,
      protocol := none, maxPacketSize := 0, numConfigs := 0, vendorId := 0, productId := 0,
      revisionNumber := none, deviceNumber := 0, busNumber := 0, config := [], leaf := none }
    [some hub, none, some plain]

/-- A topology line, without its newline. -/
def topologyLine : List Char := "T:  Bus=01 Lev=00 Prnt=00 Port=00 Cnt=00 Dev#=  1".data

/-- A devices file of one line, ending in a newline. -/
def oneLine : List Char := topologyLine ++ ['\n']

/-- Modelled from the spec: `usb_parse_line` of `usbparse.c`, which is not among the sources,
as far as the line buffer goes. The spec hands the line classifier "one line of text" and
says that it "produces no side effects" (section 4.1), so the buffer is left as it was
received; the parsing itself is replaced by a record of the line handed over. -/
def keep_parse_line (line : String) (log : List String) : String × List String :=
  (line, log ++ [line])

/-- Collaborators over a parser state that is the log of the lines handed to
`usb_parse_line`, which leaves the buffer unchanged; the only file is
`/proc/bus/usb/devices`, holding `oneLine`, and the forest is always `forest`. -/
def collab : Collab (List String) :=
  { usb_initialize_list := fun _ => []
    usb_parse_line := keep_parse_line
    usb_name_devices := fun log => log
    rootDevice := fun _ => some forest
    usb_find_device := fun _ deviceNumber busNumber =>
      if deviceNumber = 2 ∧ busNumber = 1 then some mouse else none
    gtk_ctree_remove_node := fun _ _ => []
    fopen := fun path => if path = "/proc/bus/usb/devices" then some oneLine else none }

/-- The application state at start-up, after `initialize_stuff` (line 391). -/
def app : App (List String) :=
  { usb := [], treeUSB := [], textDescription := [], messages := [], stdout := [],
    devicesFile := "/proc/bus/usb/devices", signal_connected := false }

end Sample

/-! ## Loops and blocks of the formatter -/

theorem forLoop_append {α : Type} (body : Nat → List α → List α) (f : Nat → List α)
    (hbody : ∀ i s, body i s = s ++ f i) (n i : Nat) (s : List α) :
    forLoop body i n s = s ++ (List.range' i n).flatMap f := by
  induction n generalizing i s with
  | zero => simp [forLoop]
  | succ k ih =>
    rw [forLoop, ih, hbody, List.range'_succ, List.flatMap_cons, List.append_assoc]

theorem speedString_eq_speedLabel (speed : Int) : speedString speed = Spec.speedLabel speed := by
  unfold speedString Spec.speedLabel Spec.rateTable
  by_cases h1 : speed = 1
  · subst h1; rfl
  · by_cases h12 : speed = 12
    · subst h12; rfl
    · by_cases h480 : speed = 480
      · subst h480; rfl
      · have e1 : (speed == 1) = false := by simpa using h1
        have e12 : (speed == 12) = false := by simpa using h12
        have e480 : (speed == 480) = false := by simpa using h480
        simp [h1, h12, h480, List.lookup, e1, e12, e480]

theorem interfaceBlock_eq (env : Env) (interface : DeviceInterface) (box : TextBox) :
    PopulateListBox.interfaceBlock env interface box =
      box ++ (Spec.interfaceSummary env interface ++ Spec.endpointSegments env interface) := by
  unfold PopulateListBox.interfaceBlock Spec.interfaceSummary Spec.endpointSegments
  rw [forLoop_append _ (fun k =>
    match interface.endpoint.getD k none with
    | some endpoint => [sprintfEndpoint env endpoint]
    | none => [])]
  · rw [List.range_eq_range']
    cases interface.name <;> simp [gtk_editable_insert_text]
  · intro i s
    cases interface.endpoint.getD i none <;> simp [gtk_editable_insert_text]

theorem configBlock_eq (env : Env) (config : DeviceConfig) (box : TextBox) :
    PopulateListBox.configBlock env config box =
      box ++ (sprintfConfig env config :: Spec.interfaceSegments env config) := by
  unfold PopulateListBox.configBlock Spec.interfaceSegments
  rw [forLoop_append _ (fun j =>
    match config.interface.getD j none with
    | some interface => Spec.interfaceSummary env interface ++ Spec.endpointSegments env interface
    | none => [])]
  · rw [List.range_eq_range']
    simp [gtk_editable_insert_text]
  · intro i s
    cases config.interface.getD i none with
    | none => simp
    | some interface => simp [interfaceBlock_eq]

theorem deviceBlocks_eq (env : Env) (device : Device) (box : TextBox) :
    PopulateListBox.deviceBlocks env device box =
      box ++ (device.name.toList ++ Spec.deviceSegments env device) := by
  unfold PopulateListBox.deviceBlocks Spec.deviceSegments
  rw [speedString_eq_speedLabel]
  cases device.name <;> cases device.manufacturer <;> cases device.serialNumber <;>
    cases device.bandwidth <;> cases device.version <;>
    by_cases hp : device.maxChildren = 0 <;> by_cases hv : device.vendorId = 0 <;>
    simp [gtk_editable_insert_text, hp, hv]

theorem segments_eq (env : Env) (device : Device) :
    PopulateListBox.segments env device =
      device.name.toList ++ Spec.deviceSegments env device ++
        Spec.configurationPart env device := by
  unfold PopulateListBox.segments Spec.configurationPart
  rw [forLoop_append _ (fun i =>
    match device.config.getD i none with
    | some config => sprintfConfig env config :: Spec.interfaceSegments env config
    | none => [])]
  · rw [List.range_eq_range', deviceBlocks_eq]
    simp
  · intro i s
    cases device.config.getD i none with
    | none => simp
    | some config => simp [configBlock_eq]

theorem speedLabel_unknown (speed : Int) (h1 : speed ≠ 1) (h12 : speed ≠ 12)
    (h480 : speed ≠ 480) : Spec.speedLabel speed = "unknown" := by
  rw [← speedString_eq_speedLabel]
  simp [speedString, h1, h12, h480]

theorem flatMap_range_eq_nil {α : Type} (f : Nat → List α) (n : Nat)
    (h : ∀ i, i < n → f i = []) : (List.range n).flatMap f = [] := by
  induction n with
  | zero => simp
  | succ k ih =>
    rw [List.range_succ, List.flatMap_append, ih (fun i hi => h i (Nat.lt_succ_of_lt hi))]
    simp [h k (Nat.lt_succ_self k)]

theorem infix_flatMap_range {α : Type} (f : Nat → List α) (n i : Nat) (hi : i < n) :
    f i <:+: (List.range n).flatMap f := by
  induction n with
  | zero => omega
  | succ k ih =>
    rw [List.range_succ, List.flatMap_append]
    by_cases hk : i = k
    · subst hk
      exact ⟨(List.range i).flatMap f, [], by simp⟩
    · exact (ih (by omega)).trans (List.prefix_append _ _).isInfix

/-! ## The description formatter: claims C1, C3, C4, C5, C6 -/

/-- C1: for every device the formatter emits a speed segment, right after the name,
manufacturer and serial number segments; its text is "\nSpeed: " followed by the label, which is
"1.5Mb/s (low)" for speed 1, "12Mb/s (full)" for 12, "480Mb/s (high)" for 480 and "unknown" for
every other value. -/
theorem speed_segment_label (env : Env) (device : Device) :
    ∃ label after,
      PopulateListBox.segments env device =
        (device.name.toList ++
          (match device.manufacturer with
            | some manufacturer => ["\nManufacturer: " ++ manufacturer]
            | none => []) ++
          (match device.serialNumber with
            | some serialNumber => ["\nSerial Number: " ++ serialNumber]
            | none => [])) ++ ("\nSpeed: " ++ label) :: after ∧
      (device.speed = 1 → label = "1.5Mb/s (low)") ∧
      (device.speed = 12 → label = "12Mb/s (full)") ∧
      (device.speed = 480 → label = "480Mb/s (high)") ∧
      (device.speed ≠ 1 → device.speed ≠ 12 → device.speed ≠ 480 → label = "unknown") := by
  have hsplit : ∃ after, PopulateListBox.segments env device =
      (device.name.toList ++
        (match device.manufacturer with
          | some manufacturer => ["\nManufacturer: " ++ manufacturer]
          | none => []) ++
        (match device.serialNumber with
          | some serialNumber => ["\nSerial Number: " ++ serialNumber]
          | none => [])) ++ ("\nSpeed: " ++ Spec.speedLabel device.speed) :: after := by
    rw [segments_eq]
    unfold Spec.deviceSegments
    exact ⟨_, by simp only [List.append_assoc, List.singleton_append, List.cons_append]; rfl⟩
  obtain ⟨after, hafter⟩ := hsplit
  refine ⟨Spec.speedLabel device.speed, after, hafter, ?_, ?_, ?_, ?_⟩
  · intro h; rw [h]; rfl
  · intro h; rw [h]; rfl
  · intro h; rw [h]; rfl
  · exact speedLabel_unknown device.speed

/-- C5: a device with a name and no other optional data (no manufacturer, serial number,
bandwidth or version, `maxChildren = 0`, `vendorId = 0`, every configuration slot empty) is
described by exactly two segments: the name verbatim, then "\nSpeed: " with the speed label. -/
theorem minimal_device_two_segments (env : Env) (device : Device) (name : String)
    (hname : device.name = some name)
    (hmanufacturer : device.manufacturer = none)
    (hserial : device.serialNumber = none)
    (hbandwidth : device.bandwidth = none)
    (hversion : device.version = none)
    (hports : device.maxChildren = 0)
    (hvendor : device.vendorId = 0)
    (hconfig : ∀ i, i < env.MAX_CONFIGS → device.config.getD i none = none) :
    PopulateListBox.segments env device = [name, "\nSpeed: " ++ Spec.speedLabel device.speed] := by
  have hpart : Spec.configurationPart env device = [] := by
    unfold Spec.configurationPart
    apply flatMap_range_eq_nil
    intro i hi
    simp only [hconfig i hi]
  rw [segments_eq, hpart]
  unfold Spec.deviceSegments
  simp [hname, hmanufacturer, hserial, hbandwidth, hversion, hports, hvendor]

/-- C6: the configuration part of a description comes after all the device-level segments and
lists every present configuration once, in ascending slot order below `MAX_CONFIGS`; each
configuration summary is followed at once by the segments of its present interfaces in ascending
slot order below `MAX_INTERFACES`, each interface summary by the summaries of its present
endpoints in ascending slot order below `MAX_ENDPOINTS`; empty slots add nothing. -/
theorem configuration_order (env : Env) (device : Device) :
    PopulateListBox.segments env device =
      PopulateListBox.deviceBlocks env device [] ++
        (List.range env.MAX_CONFIGS).flatMap (fun i =>
          match device.config.getD i none with
          | none => []
          | some config =>
            sprintfConfig env config ::
              (List.range env.MAX_INTERFACES).flatMap (fun j =>
                match config.interface.getD j none with
                | none => []
                | some interface =>
                  Spec.interfaceSummary env interface ++
                    (List.range env.MAX_ENDPOINTS).flatMap (fun k =>
                      match interface.endpoint.getD k none with
                      | none => []
                      | some endpoint => [sprintfEndpoint env endpoint]))) := by
  rw [segments_eq, deviceBlocks_eq, List.nil_append]
  unfold Spec.configurationPart Spec.interfaceSegments Spec.endpointSegments
  congr 1
  congr 1
  funext i
  cases device.config.getD i none with
  | none => rfl
  | some config =>
    simp only
    congr 2
    funext j
    cases config.interface.getD j none with
    | none => rfl
    | some interface =>
      simp only
      congr 2
      funext k
      cases interface.endpoint.getD k none <;> rfl

theorem endpointSegments_head (env : Env) (interface : DeviceInterface) (s : String)
    (h : s ∈ Spec.endpointSegments env interface) :
    ∃ rest, s.data = '\n' :: '\n' :: rest := by
  unfold Spec.endpointSegments at h
  simp only [List.mem_flatMap] at h
  obtain ⟨k, -, hk⟩ := h
  cases hep : interface.endpoint.getD k none with
  | none => rw [hep] at hk; cases hk
  | some endpoint =>
    rw [hep] at hk
    simp only [List.mem_singleton] at hk
    subst hk
    exact ⟨_, by simp only [sprintfEndpoint, String.data_append]; rfl⟩

theorem interfaceSummary_head (env : Env) (interface : DeviceInterface) (s : String)
    (h : s ∈ Spec.interfaceSummary env interface) :
    ∃ c rest, s.data = '\n' :: c :: rest ∧ (c = '\n' ∨ c = '\t') := by
  unfold Spec.interfaceSummary at h
  simp only [List.mem_append, List.mem_singleton] at h
  rcases h with (h | h) | h
  · subst h
    exact ⟨'\n', _, by simp only [String.data_append]; rfl, Or.inl rfl⟩
  · cases hname : interface.name with
    | none => rw [hname] at h; cases h
    | some name =>
      rw [hname] at h
      simp only [List.mem_singleton] at h
      subst h
      exact ⟨'\t', _, by simp only [String.data_append]; rfl, Or.inr rfl⟩
  · subst h
    exact ⟨'\t', _, by simp only [sprintfInterface, String.data_append]; rfl, Or.inr rfl⟩

theorem configurationPart_head (env : Env) (device : Device) (s : String)
    (h : s ∈ Spec.configurationPart env device) :
    ∃ c rest, s.data = '\n' :: c :: rest ∧ (c = '\n' ∨ c = '\t') := by
  unfold Spec.configurationPart at h
  simp only [List.mem_flatMap] at h
  obtain ⟨i, -, hi⟩ := h
  cases hcfg : device.config.getD i none with
  | none => rw [hcfg] at hi; cases hi
  | some config =>
    rw [hcfg] at hi
    simp only [List.mem_cons] at hi
    rcases hi with hi | hi
    · subst hi
      exact ⟨'\n', _, by simp only [sprintfConfig, String.data_append]; rfl, Or.inl rfl⟩
    · unfold Spec.interfaceSegments at hi
      simp only [List.mem_flatMap] at hi
      obtain ⟨j, -, hj⟩ := hi
      cases hitf : config.interface.getD j none with
      | none => rw [hitf] at hj; cases hj
      | some interface =>
        rw [hitf] at hj
        simp only [List.mem_append] at hj
        rcases hj with hj | hj
        · exact interfaceSummary_head env interface s hj
        · obtain ⟨rest, hrest⟩ := endpointSegments_head env interface s hj
          exact ⟨'\n', rest, hrest, Or.inl rfl⟩

theorem not_labelled_of_head (label s : String) (a b : Char) (ls rest : List Char)
    (hl : label.data = '\n' :: a :: ls) (hs : s.data = '\n' :: b :: rest)
    (hb : b = '\n' ∨ b = '\t') (ha : a ≠ '\n') (ha' : a ≠ '\t') :
    ¬ Spec.labelled label s := by
  unfold Spec.labelled
  rw [hl, hs]
  intro h
  rw [List.cons_prefix_cons, List.cons_prefix_cons] at h
  rcases hb with hb | hb
  · exact ha (h.2.1.trans hb)
  · exact ha' (h.2.1.trans hb)

theorem exists_labelled_formatted (env : Env) (device : Device) (label : String) (a : Char)
    (ls : List Char) (hl : label.data = '\n' :: a :: ls) (ha : a ≠ '\n') (ha' : a ≠ '\t') :
    (∃ s ∈ Spec.deviceSegments env device ++ Spec.configurationPart env device,
        Spec.labelled label s) ↔
      ∃ s ∈ Spec.deviceSegments env device, Spec.labelled label s := by
  constructor
  · rintro ⟨s, hs, hlab⟩
    rcases List.mem_append.mp hs with hs | hs
    · exact ⟨s, hs, hlab⟩
    · obtain ⟨b, rest, hdata, hb⟩ := configurationPart_head env device s hs
      exact absurd hlab (not_labelled_of_head label s a b ls rest hl hdata hb ha ha')
  · rintro ⟨s, hs, hlab⟩
    exact ⟨s, List.mem_append.mpr (Or.inl hs), hlab⟩

theorem mem_deviceSegments (env : Env) (device : Device) (s : String) :
    s ∈ Spec.deviceSegments env device ↔
      (∃ m, device.manufacturer = some m ∧ s = "\nManufacturer: " ++ m) ∨
      (∃ n, device.serialNumber = some n ∧ s = "\nSerial Number: " ++ n) ∨
      s = "\nSpeed: " ++ Spec.speedLabel device.speed ∨
      (device.maxChildren ≠ 0 ∧ s = "\nNumber of Ports: " ++ fmt_i device.maxChildren) ∨
      (∃ b, device.bandwidth = some b ∧
        (s = "\nBandwidth allocated: " ++ fmt_i b.allocated ++ " / " ++
            fmt_i b.total ++ " (" ++ fmt_i b.percent ++ "%)" ∨
          s = "\nTotal number of interrupt requests: " ++ fmt_i b.numInterruptRequests ∨
          s = "\nTotal number of isochronous requests: " ++ fmt_i b.numIsocRequests)) ∨
      (∃ v, device.version = some v ∧
        s = "\nUSB Version: " ++ v ++
          "\nDevice Class: " ++ fmt_s env device.class_ ++
          "\nDevice Subclass: " ++ fmt_s env device.subClass ++
          "\nDevice Protocol: " ++ fmt_s env device.protocol ++
          "\nMaximum Default Endpoint Size: " ++ fmt_i device.maxPacketSize ++
          "\nNumber of Configurations: " ++ fmt_i device.numConfigs) ∨
      (device.vendorId ≠ 0 ∧
        s = "\nVendor Id: " ++ fmt_x 4 device.vendorId ++
          "\nProduct Id: " ++ fmt_x 4 device.productId ++
          "\nRevision Number: " ++ fmt_s env device.revisionNumber) := by
  unfold Spec.deviceSegments
  simp only [List.mem_append, List.mem_singleton, List.mem_ite_nil_right, or_assoc]
  cases device.manufacturer <;> cases device.serialNumber <;> cases device.bandwidth <;>
    cases device.version <;> simp

theorem deviceSegments_manufacturer (env : Env) (device : Device) :
    (∃ s ∈ Spec.deviceSegments env device, Spec.labelled "\nManufacturer: " s) ↔
      device.manufacturer ≠ none := by
  constructor
  · rintro ⟨s, hs, hlab⟩
    rw [mem_deviceSegments] at hs
    rcases hs with ⟨m, hfield, rfl⟩ | ⟨n, -, rfl⟩ | rfl | ⟨-, rfl⟩ | ⟨b, -, rfl | rfl | rfl⟩ |
      ⟨v, -, rfl⟩ | ⟨-, rfl⟩
    all_goals first
      | (rw [hfield]; exact Option.some_ne_none _)
      | (exfalso; revert hlab; simp [Spec.labelled, String.data_append])
  · intro h
    obtain ⟨m, hfield⟩ := Option.ne_none_iff_exists'.mp h
    refine ⟨"\nManufacturer: " ++ m, ?_, ?_⟩
    · rw [mem_deviceSegments]
      exact Or.inl ⟨m, hfield, rfl⟩
    · simp [Spec.labelled, String.data_append]

theorem deviceSegments_serial (env : Env) (device : Device) :
    (∃ s ∈ Spec.deviceSegments env device, Spec.labelled "\nSerial Number: " s) ↔
      device.serialNumber ≠ none := by
  constructor
  · rintro ⟨s, hs, hlab⟩
    rw [mem_deviceSegments] at hs
    rcases hs with ⟨m, -, rfl⟩ | ⟨n, hfield, rfl⟩ | rfl | ⟨-, rfl⟩ | ⟨b, -, rfl | rfl | rfl⟩ |
      ⟨v, -, rfl⟩ | ⟨-, rfl⟩
    all_goals first
      | (rw [hfield]; exact Option.some_ne_none _)
      | (exfalso; revert hlab; simp [Spec.labelled, String.data_append])
  · intro h
    obtain ⟨n, hfield⟩ := Option.ne_none_iff_exists'.mp h
    refine ⟨"\nSerial Number: " ++ n, ?_, ?_⟩
    · rw [mem_deviceSegments]
      exact Or.inr (Or.inl ⟨n, hfield, rfl⟩)
    · simp [Spec.labelled, String.data_append]

theorem deviceSegments_allocated (env : Env) (device : Device) :
    (∃ s ∈ Spec.deviceSegments env device, Spec.labelled "\nBandwidth allocated: " s) ↔
      device.bandwidth ≠ none := by
  constructor
  · rintro ⟨s, hs, hlab⟩
    rw [mem_deviceSegments] at hs
    rcases hs with ⟨m, -, rfl⟩ | ⟨n, -, rfl⟩ | rfl | ⟨-, rfl⟩ | ⟨b, hfield, rfl | rfl | rfl⟩ |
      ⟨v, -, rfl⟩ | ⟨-, rfl⟩
    all_goals first
      | (rw [hfield]; exact Option.some_ne_none _)
      | (exfalso; revert hlab; simp [Spec.labelled, String.data_append])
  · intro h
    obtain ⟨b, hfield⟩ := Option.ne_none_iff_exists'.mp h
    refine ⟨"\nBandwidth allocated: " ++ fmt_i b.allocated ++ " / " ++
      fmt_i b.total ++ " (" ++ fmt_i b.percent ++ "%)", ?_, ?_⟩
    · rw [mem_deviceSegments]
      exact Or.inr (Or.inr (Or.inr (Or.inr (Or.inl ⟨b, hfield, Or.inl rfl⟩))))
    · simp [Spec.labelled, String.data_append]

theorem deviceSegments_interrupt (env : Env) (device : Device) :
    (∃ s ∈ Spec.deviceSegments env device, Spec.labelled "\nTotal number of interrupt requests: " s) ↔
      device.bandwidth ≠ none := by
  constructor
  · rintro ⟨s, hs, hlab⟩
    rw [mem_deviceSegments] at hs
    rcases hs with ⟨m, -, rfl⟩ | ⟨n, -, rfl⟩ | rfl | ⟨-, rfl⟩ | ⟨b, hfield, rfl | rfl | rfl⟩ |
      ⟨v, -, rfl⟩ | ⟨-, rfl⟩
    all_goals first
      | (rw [hfield]; exact Option.some_ne_none _)
      | (exfalso; revert hlab; simp [Spec.labelled, String.data_append])
  · intro h
    obtain ⟨b, hfield⟩ := Option.ne_none_iff_exists'.mp h
    refine ⟨"\nTotal number of interrupt requests: " ++ fmt_i b.numInterruptRequests, ?_, ?_⟩
    · rw [mem_deviceSegments]
      exact Or.inr (Or.inr (Or.inr (Or.inr (Or.inl ⟨b, hfield, Or.inr (Or.inl rfl)⟩))))
    · simp [Spec.labelled, String.data_append]

theorem deviceSegments_isochronous (env : Env) (device : Device) :
    (∃ s ∈ Spec.deviceSegments env device, Spec.labelled "\nTotal number of isochronous requests: " s) ↔
      device.bandwidth ≠ none := by
  constructor
  · rintro ⟨s, hs, hlab⟩
    rw [mem_deviceSegments] at hs
    rcases hs with ⟨m, -, rfl⟩ | ⟨n, -, rfl⟩ | rfl | ⟨-, rfl⟩ | ⟨b, hfield, rfl | rfl | rfl⟩ |
      ⟨v, -, rfl⟩ | ⟨-, rfl⟩
    all_goals first
      | (rw [hfield]; exact Option.some_ne_none _)
      | (exfalso; revert hlab; simp [Spec.labelled, String.data_append])
  · intro h
    obtain ⟨b, hfield⟩ := Option.ne_none_iff_exists'.mp h
    refine ⟨"\nTotal number of isochronous requests: " ++ fmt_i b.numIsocRequests, ?_, ?_⟩
    · rw [mem_deviceSegments]
      exact Or.inr (Or.inr (Or.inr (Or.inr (Or.inl ⟨b, hfield, Or.inr (Or.inr rfl)⟩))))
    · simp [Spec.labelled, String.data_append]

theorem interfaceBlock_name (env : Env) (interface : DeviceInterface) :
    (∃ s ∈ PopulateListBox.interfaceBlock env interface [], Spec.labelled "\n\t\tName: " s) ↔
      interface.name ≠ none := by
  rw [interfaceBlock_eq, List.nil_append]
  constructor
  · rintro ⟨s, hs, hlab⟩
    rcases List.mem_append.mp hs with hs | hs
    · unfold Spec.interfaceSummary at hs
      cases hname : interface.name with
      | none =>
        exfalso
        rw [hname] at hs
        simp only [List.append_nil, List.mem_append, List.mem_singleton] at hs
        rcases hs with rfl | rfl
        · revert hlab; simp [Spec.labelled, String.data_append]
        · revert hlab; simp [Spec.labelled, sprintfInterface, String.data_append]
      | some name => exact Option.some_ne_none _
    · exfalso
      obtain ⟨rest, hrest⟩ := endpointSegments_head env interface s hs
      revert hlab
      simp [Spec.labelled, hrest]
  · intro h
    obtain ⟨name, hname⟩ := Option.ne_none_iff_exists'.mp h
    refine ⟨"\n\t\tName: " ++ name, ?_, ?_⟩
    · unfold Spec.interfaceSummary
      simp [hname]
    · simp [Spec.labelled, String.data_append]

theorem interfaceBlock_within (env : Env) (device : Device) (i j : Nat) (config : DeviceConfig)
    (interface : DeviceInterface) (hi : i < env.MAX_CONFIGS)
    (hconfig : device.config.getD i none = some config) (hj : j < env.MAX_INTERFACES)
    (hinterface : config.interface.getD j none = some interface) :
    PopulateListBox.interfaceBlock env interface [] <:+: Spec.configurationPart env device := by
  rw [interfaceBlock_eq, List.nil_append]
  have h1 := infix_flatMap_range (fun j =>
    match config.interface.getD j none with
    | some interface => Spec.interfaceSummary env interface ++ Spec.endpointSegments env interface
    | none => []) env.MAX_INTERFACES j hj
  simp only [hinterface] at h1
  have h2 := infix_flatMap_range (fun i =>
    match device.config.getD i none with
    | some config => sprintfConfig env config :: Spec.interfaceSegments env config
    | none => []) env.MAX_CONFIGS i hi
  simp only [hconfig] at h2
  exact (h1.trans (List.suffix_cons _ _).isInfix).trans h2

/-- C3: the segments the formatter builds after the verbatim name segment contain a segment
labelled "Serial Number:" exactly when the serial number is present, one labelled
"Manufacturer:" exactly when the manufacturer is present, and each of the three bandwidth
segments exactly when the bandwidth record is present; the block of every present interface
is part of the output and contains a "Name:" segment exactly when the interface has a name.
When the name itself does not begin with a line break, the same holds of the whole output. -/
theorem optional_labels_iff_present (env : Env) (device : Device) :
    ∃ formatted,
      PopulateListBox.segments env device = device.name.toList ++ formatted ∧
      ((∃ s ∈ formatted, Spec.labelled "\nSerial Number: " s) ↔ device.serialNumber ≠ none) ∧
      ((∃ s ∈ formatted, Spec.labelled "\nManufacturer: " s) ↔ device.manufacturer ≠ none) ∧
      ((∃ s ∈ formatted, Spec.labelled "\nBandwidth allocated: " s) ↔
        device.bandwidth ≠ none) ∧
      ((∃ s ∈ formatted, Spec.labelled "\nTotal number of interrupt requests: " s) ↔
        device.bandwidth ≠ none) ∧
      ((∃ s ∈ formatted, Spec.labelled "\nTotal number of isochronous requests: " s) ↔
        device.bandwidth ≠ none) ∧
      (∀ i j config interface, i < env.MAX_CONFIGS →
        device.config.getD i none = some config → j < env.MAX_INTERFACES →
        config.interface.getD j none = some interface →
          PopulateListBox.interfaceBlock env interface [] <:+: formatted ∧
          ((∃ s ∈ PopulateListBox.interfaceBlock env interface [],
              Spec.labelled "\n\t\tName: " s) ↔ interface.name ≠ none)) ∧
      ((∀ name, device.name = some name → ¬ Spec.labelled "\n" name) →
        ((∃ s ∈ PopulateListBox.segments env device, Spec.labelled "\nSerial Number: " s) ↔
          device.serialNumber ≠ none) ∧
        ((∃ s ∈ PopulateListBox.segments env device, Spec.labelled "\nManufacturer: " s) ↔
          device.manufacturer ≠ none) ∧
        ((∃ s ∈ PopulateListBox.segments env device,
            Spec.labelled "\nBandwidth allocated: " s) ↔ device.bandwidth ≠ none) ∧
        ((∃ s ∈ PopulateListBox.segments env device,
            Spec.labelled "\nTotal number of interrupt requests: " s) ↔
          device.bandwidth ≠ none) ∧
        ((∃ s ∈ PopulateListBox.segments env device,
            Spec.labelled "\nTotal number of isochronous requests: " s) ↔
          device.bandwidth ≠ none)) := by
  have hseg : PopulateListBox.segments env device = device.name.toList ++
      (Spec.deviceSegments env device ++ Spec.configurationPart env device) := by
    rw [segments_eq, List.append_assoc]
  have hser := (exists_labelled_formatted env device "\nSerial Number: " 'S' _ rfl
    (by decide) (by decide)).trans (deviceSegments_serial env device)
  have hman := (exists_labelled_formatted env device "\nManufacturer: " 'M' _ rfl
    (by decide) (by decide)).trans (deviceSegments_manufacturer env device)
  have hall := (exists_labelled_formatted env device "\nBandwidth allocated: " 'B' _ rfl
    (by decide) (by decide)).trans (deviceSegments_allocated env device)
  have hint := (exists_labelled_formatted env device
    "\nTotal number of interrupt requests: " 'T' _ rfl
    (by decide) (by decide)).trans (deviceSegments_interrupt env device)
  have hiso := (exists_labelled_formatted env device
    "\nTotal number of isochronous requests: " 'T' _ rfl
    (by decide) (by decide)).trans (deviceSegments_isochronous env device)
  have whole : ∀ label : String, "\n".data <+: label.data →
      (∀ name, device.name = some name → ¬ Spec.labelled "\n" name) →
      ((∃ s ∈ PopulateListBox.segments env device, Spec.labelled label s) ↔
        ∃ s ∈ Spec.deviceSegments env device ++ Spec.configurationPart env device,
          Spec.labelled label s) := by
    intro label hlabel hname
    rw [hseg]
    constructor
    · rintro ⟨s, hs, hlab⟩
      rcases List.mem_append.mp hs with hs | hs
      · exfalso
        have hs' : device.name = some s := by
          cases hn : device.name with
          | none => rw [hn] at hs; cases hs
          | some n =>
            rw [hn] at hs
            simp only [Option.toList, List.mem_singleton] at hs
            rw [hs]
        exact hname s hs' (hlabel.trans hlab)
      · exact ⟨s, hs, hlab⟩
    · rintro ⟨s, hs, hlab⟩
      exact ⟨s, List.mem_append.mpr (Or.inr hs), hlab⟩
  refine ⟨_, hseg, hser, hman, hall, hint, hiso, ?_, ?_⟩
  · intro i j config interface hi hconfig hj hinterface
    exact ⟨(interfaceBlock_within env device i j config interface hi hconfig hj hinterface).trans
      (List.suffix_append _ _).isInfix, interfaceBlock_name env interface⟩
  · intro hname
    exact ⟨(whole _ (by decide) hname).trans hser, (whole _ (by decide) hname).trans hman,
      (whole _ (by decide) hname).trans hall, (whole _ (by decide) hname).trans hint,
      (whole _ (by decide) hname).trans hiso⟩

/-- C5 at the sample device with a name and a speed only. -/
theorem minimal_device_two_segments_witness :
    PopulateListBox.segments Sample.env Sample.plain =
      ["USB UHCI Root Hub", "\nSpeed: 12Mb/s (full)"] :=
  minimal_device_two_segments Sample.env Sample.plain "USB UHCI Root Hub" rfl rfl rfl rfl rfl
    rfl rfl (fun _ _ => rfl)

/-- C4, as stated, fails: the sample mouse has an endpoint without interval and a
configuration without `maxPower`, and its description still holds the endpoint summary with
the label "Interval:" and the configuration summary with the label "MaxPower Needed:", each
followed by the text printed for a null string. -/
theorem absent_field_label_still_emitted :
    Sample.mouseEndpoint.interval = none ∧
    Sample.mouseConfig.maxPower = none ∧
    PopulateListBox.segments Sample.env Sample.mouse =
      ["USB Mouse",
        "\nSpeed: 1.5Mb/s (low)",
        "\n\nConfig Number: 1\n\tNumber of Interfaces: 1\n\tAttributes: a0\n\tMaxPower Needed: (null)",
        "\n\n\tInterface Number: 0",
        "\n\t\tName: usbhid",
        "\n\t\tAlternate Number: 0\n\t\tClass: 03(HID  )\n\t\tSub Class: 1\n\t\tProtocol: 2" ++
          "\n\t\tNumber of Endpoints: 1",
        "\n\n\t\t\tEndpoint Address: 81\n\t\t\tDirection: in\n\t\t\tAttribute: 3\n\t\t\tType: Int." ++
          "\n\t\t\tMax Packet Size: 8\n\t\t\tInterval: (null)"] ∧
    (∃ s ∈ PopulateListBox.segments Sample.env Sample.mouse,
      s = sprintfEndpoint Sample.env Sample.mouseEndpoint ∧ Spec.mentions "Interval:" s) ∧
    (∃ s ∈ PopulateListBox.segments Sample.env Sample.mouse,
      s = sprintfConfig Sample.env Sample.mouseConfig ∧ Spec.mentions "MaxPower Needed:" s) := by
  refine ⟨rfl, rfl, by decide, ⟨_, ?_, rfl, ?_⟩, ⟨_, ?_, rfl, ?_⟩⟩
  · decide
  · exact ⟨"\n\n\t\t\tEndpoint Address: 81\n\t\t\tDirection: in\n\t\t\tAttribute: 3\n\t\t\tType: Int.\n\t\t\tMax Packet Size: 8\n\t\t\t".data,
      " (null)".data, by decide⟩
  · decide
  · exact ⟨"\n\nConfig Number: 1\n\tNumber of Interfaces: 1\n\tAttributes: a0\n\t".data,
      " (null)".data, by decide⟩

theorem configSummary_within (env : Env) (device : Device) (i : Nat) (config : DeviceConfig)
    (hi : i < env.MAX_CONFIGS) (hconfig : device.config.getD i none = some config) :
    sprintfConfig env config :: Spec.interfaceSegments env config <:+:
      PopulateListBox.segments env device := by
  have h := infix_flatMap_range (fun i =>
    match device.config.getD i none with
    | some config => sprintfConfig env config :: Spec.interfaceSegments env config
    | none => []) env.MAX_CONFIGS i hi
  simp only [hconfig] at h
  have hpart : Spec.configurationPart env device <:+: PopulateListBox.segments env device := by
    rw [segments_eq]
    exact (List.suffix_append _ _).isInfix
  exact h.trans hpart

theorem endpointSummary_mem (env : Env) (device : Device) (i j k : Nat)
    (config : DeviceConfig) (interface : DeviceInterface) (endpoint : DeviceEndpoint)
    (hi : i < env.MAX_CONFIGS) (hconfig : device.config.getD i none = some config)
    (hj : j < env.MAX_INTERFACES) (hinterface : config.interface.getD j none = some interface)
    (hk : k < env.MAX_ENDPOINTS) (hendpoint : interface.endpoint.getD k none = some endpoint) :
    sprintfEndpoint env endpoint ∈ PopulateListBox.segments env device := by
  have he : [sprintfEndpoint env endpoint] <:+: Spec.endpointSegments env interface := by
    have h := infix_flatMap_range (fun k =>
      match interface.endpoint.getD k none with
      | some endpoint => [sprintfEndpoint env endpoint]
      | none => []) env.MAX_ENDPOINTS k hk
    simp only [hendpoint] at h
    exact h
  have hb := interfaceBlock_within env device i j config interface hi hconfig hj hinterface
  rw [interfaceBlock_eq, List.nil_append] at hb
  have hpart : Spec.configurationPart env device <:+: PopulateListBox.segments env device := by
    rw [segments_eq]
    exact (List.suffix_append _ _).isInfix
  exact (((he.trans (List.suffix_append _ _).isInfix).trans hb).trans hpart).subset
    (List.mem_singleton_self _)

/-- C4, amended: for every present configuration (slot below `MAX_CONFIGS`) the description
holds the summary of the configuration, and that summary always ends with the label
"MaxPower Needed: " followed by the text printed for `maxPower`, which is the value itself
when it is present; and for every present endpoint of a present interface of that
configuration (slots below the bounds) the description holds the endpoint summary, which
always ends with the label "Interval: " followed by the text printed for the interval field,
the interval itself when it is present. -/
theorem summary_labels_unconditional (env : Env) (device : Device) (i : Nat)
    (config : DeviceConfig)
    (hi : i < env.MAX_CONFIGS) (hconfig : device.config.getD i none = some config) :
    (sprintfConfig env config ∈ PopulateListBox.segments env device ∧
      ∃ before value,
        sprintfConfig env config = before ++ "\n\tMaxPower Needed: " ++ value ∧
        (∀ v, config.maxPower = some v → value = v)) ∧
    (∀ (j k : Nat) (interface : DeviceInterface) (endpoint : DeviceEndpoint),
      j < env.MAX_INTERFACES → config.interface.getD j none = some interface →
      k < env.MAX_ENDPOINTS → interface.endpoint.getD k none = some endpoint →
        sprintfEndpoint env endpoint ∈ PopulateListBox.segments env device ∧
        ∃ before value,
          sprintfEndpoint env endpoint = before ++ "\n\t\t\tInterval: " ++ value ∧
          (∀ v, endpoint.interval = some v → value = v)) := by
  refine ⟨⟨(configSummary_within env device i config hi hconfig).subset
      (List.mem_cons_self _ _), _, fmt_s env config.maxPower, rfl, ?_⟩, ?_⟩
  · intro v hv
    rw [hv]
    rfl
  · intro j k interface endpoint hj hinterface hk hendpoint
    refine ⟨endpointSummary_mem env device i j k config interface endpoint hi hconfig hj
      hinterface hk hendpoint, _, fmt_s env endpoint.interval, rfl, ?_⟩
    intro v hv
    rw [hv]
    rfl

/-- The amended C4 at the sample mouse: configuration slot 0, and its interface slot 0 with
endpoint slot 1. -/
theorem summary_labels_unconditional_witness :
    (sprintfConfig Sample.env Sample.mouseConfig ∈
        PopulateListBox.segments Sample.env Sample.mouse ∧
      ∃ before value,
        sprintfConfig Sample.env Sample.mouseConfig =
          before ++ "\n\tMaxPower Needed: " ++ value ∧
        (∀ v, Sample.mouseConfig.maxPower = some v → value = v)) ∧
    (sprintfEndpoint Sample.env Sample.mouseEndpoint ∈
        PopulateListBox.segments Sample.env Sample.mouse ∧
      ∃ before value,
        sprintfEndpoint Sample.env Sample.mouseEndpoint =
          before ++ "\n\t\t\tInterval: " ++ value ∧
        (∀ v, Sample.mouseEndpoint.interval = some v → value = v)) :=
  ⟨(summary_labels_unconditional Sample.env Sample.mouse 0 Sample.mouseConfig
      (by decide) rfl).1,
    (summary_labels_unconditional Sample.env Sample.mouse 0 Sample.mouseConfig
      (by decide) rfl).2 0 1 Sample.mouseInterface Sample.mouseEndpoint
      (by decide) rfl (by decide) rfl⟩

/-! ## `LoadUSBTree`: claims C2, C9, C10 -/

/-- C2: when the devices file cannot be opened, `LoadUSBTree` reports exactly one message,
"Can not open " followed by the path, a line break and `verifyMessage`, and changes nothing
else: the parser state with the forest, the tree widget and the description text are as
before, whatever the collaborators are. -/
theorem open_failure_reports_once {P : Type} (env : Env) (X : Collab P)
    (dataLine0 : List Char) (app : App P) (hopen : X.fopen app.devicesFile = none) :
    LoadUSBTree env X dataLine0 app =
      some { usb := app.usb, treeUSB := app.treeUSB, textDescription := app.textDescription,
             messages := app.messages ++
               [("USBView Error", "Can not open " ++ app.devicesFile ++ "\n" ++ verifyMessage)],
             stdout := app.stdout, devicesFile := app.devicesFile,
             signal_connected := app.signal_connected } := by
  unfold LoadUSBTree
  rw [hopen]

/-- C2 for a path the sample collaborators cannot open. -/
theorem open_failure_reports_once_witness :
    LoadUSBTree Sample.env Sample.collab []
        { Sample.app with devicesFile := "/home/greg/uhci.proc" } =
      some { Sample.app with
        devicesFile := "/home/greg/uhci.proc"
        messages := [("USBView Error",
          "Can not open /home/greg/uhci.proc\n" ++
          "Verify that you have USB compiled into your kernel,\n" ++
          "have the USB core modules loaded, and have the\n" ++
          "usbdevfs filesystem mounted.")] } :=
  open_failure_reports_once Sample.env Sample.collab []
    { Sample.app with devicesFile := "/home/greg/uhci.proc" } (by decide)

/-! ## `DisplayDevice` and the row data: claims C7, C8, C9 -/

theorem slotRows_nil (env : Env) (parentNode : Option Nat) (base count : Nat) :
    Spec.slotRows env parentNode base count [] = [] := by
  cases count <;> simp [Spec.slotRows]

theorem setRowData_append (tree : CTree) (row : TreeNode) (data : Int) :
    gtk_ctree_node_set_row_data (tree ++ [row]) tree.length data =
      tree ++ [{ row with rowData := data }] := by
  induction tree with
  | nil => simp [gtk_ctree_node_set_row_data]
  | cons r rs ih => simp [gtk_ctree_node_set_row_data, ih]

theorem forLoop_slots (env : Env) (parentNode : Option Nat) (slots : List (Option Device))
    (body : Nat → CTree → CTree)
    (hbody : ∀ i tree, body i tree =
      tree ++ Spec.optionRows env parentNode tree.length (slots.getD i none))
    (count i : Nat) (tree : CTree) :
    forLoop body i count tree =
      tree ++ Spec.slotRows env parentNode tree.length count (slots.drop i) := by
  induction count generalizing i tree with
  | zero => simp [forLoop, Spec.slotRows]
  | succ n ih =>
    rw [forLoop, ih, hbody]
    have hget : slots.getD i none = ((slots.drop i).head?).getD none := by
      rw [List.head?_drop, List.getD_eq_getElem?_getD]
    have htail : slots.drop (i + 1) = (slots.drop i).tail := by
      rw [List.tail_drop]
    rw [hget, htail]
    cases hdrop : slots.drop i with
    | nil => simp [Spec.optionRows, slotRows_nil]
    | cons slot rest =>
      cases slot with
      | none => simp [Spec.optionRows, Spec.slotRows]
      | some device => simp [Spec.optionRows, Spec.slotRows, List.append_assoc]

theorem DisplayDevice_eq (env : Env) (parent : Device) (device : Option Device)
    (tree : CTree) :
    DisplayDevice env parent device tree =
      tree ++ Spec.optionRows env parent.leaf tree.length device := by
  induction parent, device, tree using DisplayDevice.induct env with
  | case1 parent tree => simp [DisplayDevice, Spec.optionRows]
  | case2 parent device tree inserted device' ih =>
    rw [DisplayDevice]
    rw [forLoop_slots env (some tree.length) device.child _ _ env.MAX_CHILDREN 0]
    · cases device with
      | mk fields child =>
        simp [gtk_ctree_insert_node, setRowData_append, Spec.optionRows, Spec.rows,
          Device.setLeaf, DisplayDevice.rowData]
    · intro i t
      have h := ih i t
      cases device with
      | mk fields child =>
        simpa [inserted, device', gtk_ctree_insert_node, Device.setLeaf] using h

theorem displayLoop_eq (env : Env) (rootDevice : Device) (treeUSB : CTree)
    (hbound : rootDevice.maxChildren.toNat ≤ env.MAX_CHILDREN) :
    LoadUSBTree.displayLoop env rootDevice treeUSB =
      some (treeUSB ++ Spec.slotRows env rootDevice.leaf treeUSB.length
        rootDevice.maxChildren.toNat rootDevice.child) := by
  have guarded : ∀ (count i : Nat) (tree : CTree), i + count ≤ env.MAX_CHILDREN →
      forLoop (fun i state =>
        match state with
        | none => none
        | some treeUSB =>
          if i < env.MAX_CHILDREN then
            some (DisplayDevice env rootDevice (rootDevice.child.getD i none) treeUSB)
          else none) i count (some tree) =
      some (forLoop (fun i treeUSB =>
        DisplayDevice env rootDevice (rootDevice.child.getD i none) treeUSB) i count tree) := by
    intro count
    induction count with
    | zero => intro i tree _; rfl
    | succ n ih =>
      intro i tree hle
      have hi : i < env.MAX_CHILDREN := by omega
      rw [forLoop, forLoop]
      simp only [hi, if_true]
      exact ih (i + 1) _ (by omega)
  unfold LoadUSBTree.displayLoop
  rw [guarded _ 0 treeUSB (by omega),
    forLoop_slots env rootDevice.leaf rootDevice.child _
      (fun i tree => DisplayDevice_eq env rootDevice _ tree)]
  rfl

mutual
theorem rows_map_preorder (env : Env) (parentNode : Option Nat) (base : Nat) :
    ∀ device : Device,
      (Spec.rows env parentNode base device).map (fun row => (row.text, row.rowData)) =
        (Spec.preorder env device).map (fun d => (d.name, DisplayDevice.rowData d))
  | Device.mk fields child => by
    simp [Spec.rows, Spec.preorder,
      slotRows_map_preorder env (some base) (base + 1) env.MAX_CHILDREN child]
theorem slotRows_map_preorder (env : Env) (parentNode : Option Nat) (base : Nat) :
    ∀ (count : Nat) (slots : List (Option Device)),
      (Spec.slotRows env parentNode base count slots).map
          (fun row => (row.text, row.rowData)) =
        (Spec.preorderSlots env count slots).map (fun d => (d.name, DisplayDevice.rowData d))
  | 0, _ => by simp [Spec.slotRows, Spec.preorderSlots]
  | _ + 1, [] => by simp [Spec.slotRows, Spec.preorderSlots]
  | count + 1, none :: slots => by
    simp [Spec.slotRows, Spec.preorderSlots, slotRows_map_preorder env parentNode base count slots]
  | count + 1, some device :: slots => by
    simp [Spec.slotRows, Spec.preorderSlots, rows_map_preorder env parentNode base device,
      slotRows_map_preorder env parentNode _ count slots]
end

/-- C9, as stated, fails: the sample forest root declares `maxChildren = 2` and holds a bus
root in slot 2, below `MAX_CHILDREN`; the display pass stops at slot 1 and inserts rows for the
hub and its mouse only, so one of the three devices reachable from the root gets no row. -/
theorem display_pass_skips_slots_past_maxChildren :
    Sample.forest.child.getD 2 none = some Sample.plain ∧
    2 < Sample.env.MAX_CHILDREN ∧
    Spec.preorderSlots Sample.env Sample.env.MAX_CHILDREN Sample.forest.child =
      [Sample.hub, Sample.mouse, Sample.plain] ∧
    LoadUSBTree.displayLoop Sample.env Sample.forest [] =
      some [{ parent := none, text := some "USB UHCI Root Hub", rowData := 257 },
            { parent := some 0, text := some "USB Mouse", rowData := 513 }] := by
  refine ⟨rfl, by decide, rfl, ?_⟩
  rw [displayLoop_eq Sample.env Sample.forest [] (by decide)]
  rfl

/-- C9, amended: when the forest root declares at most `MAX_CHILDREN` children, the display
pass ends and appends to the tree widget exactly the rows of the devices reachable through
the first `maxChildren` child slots of the root, in pre-order: no row for the root or for an
empty slot, the row of a device before the rows of its children, children in ascending slot
order over all `MAX_CHILDREN` slots, every row under the row of the parent device (bus roots
under the leaf of the forest root). The texts and row data of the new rows are the names and
keys of those devices in pre-order. -/
theorem display_pass_preorder (env : Env) (rootDevice : Device) (treeUSB : CTree)
    (hbound : rootDevice.maxChildren.toNat ≤ env.MAX_CHILDREN) :
    LoadUSBTree.displayLoop env rootDevice treeUSB =
      some (treeUSB ++ Spec.slotRows env rootDevice.leaf treeUSB.length
        rootDevice.maxChildren.toNat rootDevice.child) ∧
    (Spec.slotRows env rootDevice.leaf treeUSB.length
        rootDevice.maxChildren.toNat rootDevice.child).map
          (fun row => (row.text, row.rowData)) =
      (Spec.preorderSlots env rootDevice.maxChildren.toNat rootDevice.child).map
        (fun device => (device.name, DisplayDevice.rowData device)) :=
  ⟨displayLoop_eq env rootDevice treeUSB hbound,
    slotRows_map_preorder env rootDevice.leaf treeUSB.length _ _⟩

/-- The amended C9 at the sample forest, on an empty tree widget. -/
theorem display_pass_preorder_witness :
    LoadUSBTree.displayLoop Sample.env Sample.forest [] =
      some ([] ++ Spec.slotRows Sample.env Sample.forest.leaf 0 2 Sample.forest.child) ∧
    (Spec.slotRows Sample.env Sample.forest.leaf 0 2 Sample.forest.child).map
        (fun row => (row.text, row.rowData)) =
      (Spec.preorderSlots Sample.env 2 Sample.forest.child).map
        (fun device => (device.name, DisplayDevice.rowData device)) :=
  display_pass_preorder Sample.env Sample.forest [] (by decide)

theorem DisplayDevice_row (env : Env) (parent device : Device) (tree : CTree) :
    (DisplayDevice env parent (some device) tree).get? tree.length =
      some { parent := parent.leaf, text := device.name,
             rowData := DisplayDevice.rowData device } := by
  rw [DisplayDevice_eq, List.get?_eq_getElem?, List.getElem?_append_right (Nat.le_refl _)]
  cases device with
  | mk fields child => simp [Spec.optionRows, Spec.rows]

/-- C7, as stated, fails: for the sample mouse (bus 1, device 2) the row data stored by
`DisplayDevice` is 513, which is `(2 << 8) | 1`, and not `(1 << 8) | 2 = 258`. -/
theorem row_data_not_bus_shl_device :
    gtk_ctree_node_get_row_data
        (DisplayDevice Sample.env Sample.hub (some Sample.mouse) []) 0 = 513 ∧
    Int.lor (shl Sample.mouse.busNumber 8) Sample.mouse.deviceNumber = 258 := by
  constructor
  · unfold gtk_ctree_node_get_row_data
    rw [show (0 : Nat) = ([] : CTree).length from rfl, DisplayDevice_row]
    rfl
  · decide

/-- C7, amended: the row `DisplayDevice` inserts for a device gets the next free handle, lies
under the leaf of the parent, shows the device name, and its row data is
`(deviceNumber << 8) | busNumber`. -/
theorem row_data_device_shl_bus (env : Env) (parent device : Device) (tree : CTree) :
    (DisplayDevice env parent (some device) tree).get? tree.length =
        some { parent := parent.leaf, text := device.name,
               rowData := Int.lor (shl device.deviceNumber 8) device.busNumber } ∧
    gtk_ctree_node_get_row_data (DisplayDevice env parent (some device) tree) tree.length =
      Int.lor (shl device.deviceNumber 8) device.busNumber := by
  have h := DisplayDevice_row env parent device tree
  refine ⟨h, ?_⟩
  unfold gtk_ctree_node_get_row_data
  rw [h]
  rfl

theorem rowData_ofNat (device : Device) (a b : Nat) (ha : a < 2 ^ 23) (hb : b < 2 ^ 8)
    (hdev : device.deviceNumber = (a : Int)) (hbus : device.busNumber = (b : Int)) :
    DisplayDevice.rowData device = ((2 ^ 8 * a + b : Nat) : Int) := by
  unfold DisplayDevice.rowData shl wrap32
  rw [hdev, hbus]
  have hwrap : Int.bmod ((a : Int) * 2 ^ 8) (2 ^ 32) = ((2 ^ 8 * a : Nat) : Int) := by
    unfold Int.bmod
    have hmod : ((a : Int) * 2 ^ 8) % ((2 ^ 32 : Nat) : Int) = (a : Int) * 2 ^ 8 := by
      apply Int.emod_eq_of_lt
      · positivity
      · push_cast
        omega
    simp only [hmod]
    rw [if_pos (by push_cast; omega)]
    push_cast
    ring
  rw [hwrap, Nat.mul_add_lt_is_or hb]
  rfl

theorem rowData_decode (device : Device)
    (hbus0 : 0 ≤ device.busNumber) (hbus1 : device.busNumber ≤ 255)
    (hdev0 : 0 ≤ device.deviceNumber) (hdev1 : device.deviceNumber < 2 ^ 23) :
    shr (DisplayDevice.rowData device) 8 = device.deviceNumber ∧
      Int.land (DisplayDevice.rowData device) 0x00ff = device.busNumber := by
  obtain ⟨a, ha⟩ := Int.eq_ofNat_of_zero_le hdev0
  obtain ⟨b, hb⟩ := Int.eq_ofNat_of_zero_le hbus0
  have ha' : a < 2 ^ 23 := by rw [ha] at hdev1; exact_mod_cast hdev1
  have hb' : b < 2 ^ 8 := by rw [hb] at hbus1; have : b ≤ 255 := by exact_mod_cast hbus1
                             omega
  rw [rowData_ofNat device a b ha' hb' ha hb, ha, hb]
  constructor
  · show (((2 ^ 8 * a + b) >>> 8 : Nat) : Int) = (a : Int)
    rw [Nat.shiftRight_eq_div_pow]
    congr 1
    omega
  · show (((2 ^ 8 * a + b) &&& 255 : Nat) : Int) = (b : Int)
    rw [show (255 : Nat) = 2 ^ 8 - 1 from rfl, Nat.and_pow_two_sub_one_eq_mod]
    congr 1
    omega

/-- C8: for a device with `0 <= busNumber <= 255` and `0 <= deviceNumber < 2^23`, decoding the
row data `DisplayDevice` stores for it (`key >> 8`, `key & 0xff`) gives back its device number
and bus number; selecting the node `DisplayDevice` made for it runs `PopulateListBox` on the
result of `usb_find_device` for exactly these two numbers; and two such devices with the same
key have the same device number and bus number. -/
theorem key_round_trip {P : Type} (env : Env) (X : Collab P) (app : App P)
    (parent device other : Device) (tree : CTree)
    (hbus0 : 0 ≤ device.busNumber) (hbus1 : device.busNumber ≤ 255)
    (hdev0 : 0 ≤ device.deviceNumber) (hdev1 : device.deviceNumber < 2 ^ 23)
    (obus0 : 0 ≤ other.busNumber) (obus1 : other.busNumber ≤ 255)
    (odev0 : 0 ≤ other.deviceNumber) (odev1 : other.deviceNumber < 2 ^ 23)
    (htree : app.treeUSB = DisplayDevice env parent (some device) tree) :
    shr (DisplayDevice.rowData device) 8 = device.deviceNumber ∧
    Int.land (DisplayDevice.rowData device) 0x00ff = device.busNumber ∧
    SelectItem env X tree.length app =
      (match X.usb_find_device app.usb device.deviceNumber device.busNumber with
        | none =>
          { app with stdout := app.stdout ++ ["Can't seem to find device info to display\n"] }
        | some found => { app with textDescription := PopulateListBox.segments env found }) ∧
    (DisplayDevice.rowData device = DisplayDevice.rowData other →
      device.deviceNumber = other.deviceNumber ∧ device.busNumber = other.busNumber) := by
  obtain ⟨hdev, hbus⟩ := rowData_decode device hbus0 hbus1 hdev0 hdev1
  obtain ⟨odev, obus⟩ := rowData_decode other obus0 obus1 odev0 odev1
  refine ⟨hdev, hbus, ?_, ?_⟩
  · have hdata : gtk_ctree_node_get_row_data app.treeUSB tree.length =
        DisplayDevice.rowData device := by
      unfold gtk_ctree_node_get_row_data
      rw [htree, DisplayDevice_row]
    unfold SelectItem PopulateListBox
    simp only [hdata, hdev, hbus]
  · intro hkey
    rw [hkey] at hdev hbus
    exact ⟨hdev.symm.trans odev, hbus.symm.trans obus⟩

/-- C8 at the sample mouse (bus 1, device 2), selected after it was displayed under the
sample hub. -/
theorem key_round_trip_witness :
    shr (DisplayDevice.rowData Sample.mouse) 8 = 2 ∧
    Int.land (DisplayDevice.rowData Sample.mouse) 0x00ff = 1 ∧
    SelectItem Sample.env Sample.collab 0
        { Sample.app with treeUSB := DisplayDevice Sample.env Sample.hub (some Sample.mouse) [] } =
      { Sample.app with
        treeUSB := DisplayDevice Sample.env Sample.hub (some Sample.mouse) []
        textDescription := PopulateListBox.segments Sample.env Sample.mouse } ∧
    (DisplayDevice.rowData Sample.mouse = DisplayDevice.rowData Sample.plain →
      Sample.mouse.deviceNumber = Sample.plain.deviceNumber ∧
        Sample.mouse.busNumber = Sample.plain.busNumber) :=
  key_round_trip Sample.env Sample.collab
    { Sample.app with treeUSB := DisplayDevice Sample.env Sample.hub (some Sample.mouse) [] }
    Sample.hub Sample.mouse Sample.plain [] (by decide) (by decide) (by decide) (by decide)
    (by decide) (by decide) (by decide) (by decide) rfl

/-! ## The read loop: claim C10 -/

end UsbView
